import Mathlib

/-
Verification of the GPUHideSeek simulation core (madrona_benchmark, hide-and-seek
environment) against its natural-language specification.

The development shallowly embeds the per-tick simulation systems from
src/unnamed/part_001 (sim.cpp), the data model from src/unnamed/part_000
(sim.hpp) and the procedural level generator from src/hideseek/level_gen.cpp.
Machine floats are modelled as rationals (all constants involved are exactly
representable); transcendental operations (atan2) and queries served by the
external physics engine (ray casts, AABB overlap tests against loaded collision
assets, fixed-joint creation) are taken as parameters, matching the spec's
treatment of the physics engine as an external collaborator.
-/

namespace GPUHideSeek

/-! ## Constants (sim.cpp lines 14-17, sim.hpp consts namespace) -/

/-- `constexpr inline CountT numPrepSteps = 96;` -/
def numPrepSteps : ℕ := 96

/-- `constexpr inline CountT episodeLen = 240;` -/
def episodeLen : ℕ := 240

/-- `static inline constexpr int32_t maxBoxes = 9;` -/
def maxBoxes : ℕ := 9

/-- `static inline constexpr int32_t maxRamps = 2;` -/
def maxRamps : ℕ := 2

/-- `static inline constexpr int32_t maxAgents = 16;` -/
def maxAgents : ℕ := 16

/-- Capacity of the per-world hider handle table: `Entity hiders[3];` in Sim. -/
def hiderTableCapacity : ℕ := 3

/-- Capacity of the per-world seeker handle table: `Entity seekers[3];` in Sim. -/
def seekerTableCapacity : ℕ := 3

/-! ## Basic math types (madrona::math, rational model) -/

/-- 3-component vector over ℚ, modelling `madrona::math::Vector3`. -/
structure V3 where
  x : ℚ
  y : ℚ
  z : ℚ
deriving DecidableEq, Repr

/-- 2-component vector over ℚ, modelling `madrona::math::Vector2`. -/
structure V2 where
  x : ℚ
  y : ℚ
deriving DecidableEq, Repr

def V3.zero : V3 := ⟨0, 0, 0⟩

def V2.zero : V2 := ⟨0, 0⟩

def V3.cross (a b : V3) : V3 :=
  ⟨a.y * b.z - a.z * b.y, a.z * b.x - a.x * b.z, a.x * b.y - a.y * b.x⟩

def V3.add (a b : V3) : V3 := ⟨a.x + b.x, a.y + b.y, a.z + b.z⟩

def V3.smul (c : ℚ) (a : V3) : V3 := ⟨c * a.x, c * a.y, c * a.z⟩

/-- Quaternion over ℚ, modelling `madrona::math::Quat`. -/
structure QuatQ where
  w : ℚ
  x : ℚ
  y : ℚ
  z : ℚ
deriving DecidableEq, Repr

/-- Identity rotation `Quat { 1, 0, 0, 0 }`. -/
def QuatQ.id : QuatQ := ⟨1, 0, 0, 0⟩

/-- `Quat::rotateVec`: `Vector3 pure {x,y,z}; Vector3 t = 2*cross(pure,v);
return v + w*t + cross(pure, t);` -/
def QuatQ.rotateVec (q : QuatQ) (v : V3) : V3 :=
  let pure : V3 := ⟨q.x, q.y, q.z⟩
  let t := V3.smul 2 (pure.cross v)
  (v.add (V3.smul q.w t)).add (pure.cross t)

/-- `Quat::inv` (conjugate). -/
def QuatQ.inv (q : QuatQ) : QuatQ := ⟨q.w, -q.x, -q.y, -q.z⟩

/-! ## ECS component model (sim.hpp) -/

/-- `enum class AgentType : uint32_t { Seeker = 0, Hider = 1 };` -/
inductive AgentType where
  | Seeker
  | Hider
deriving DecidableEq, Repr

/-- `enum class OwnerTeam : uint32_t { None, Seeker, Hider, Unownable };` -/
inductive OwnerTeam where
  | NoTeam
  | Seeker
  | Hider
  | Unownable
deriving DecidableEq, Repr

/-- `madrona::phys::ResponseType` (external engine enum; the simulation uses
Dynamic and Static). -/
inductive ResponseType where
  | Dynamic
  | Kinematic
  | Static
deriving DecidableEq, Repr

/-- `struct Action { int32_t x; int32_t y; int32_t r; int32_t g; int32_t l; };` -/
structure ActionRec where
  x : ℤ
  y : ℤ
  r : ℤ
  g : ℤ
  l : ℤ
deriving DecidableEq, Repr

/-- The neutral action record written by the consumption step of
`actionSystem` (sim.cpp lines 308-312) and by `makeAgent`
(level_gen.cpp lines 33-39). -/
def ActionRec.neutral : ActionRec := ⟨5, 5, 5, 0, 0⟩

/-- Ownership/mobility state of an object hit by the lock or grab ray
(`OwnerTeam` plus `ResponseType` components of a `DynamicObject`). -/
structure ObjState where
  owner : OwnerTeam
  resp : ResponseType
deriving DecidableEq, Repr

/-- The `OwnerTeam` value assigned when an agent of the given type locks an
unowned dynamic object: `owner = agent_type == AgentType::Hider ?
OwnerTeam::Hider : OwnerTeam::Seeker;` (sim.cpp lines 249-250). -/
def teamOf : AgentType → OwnerTeam
  | AgentType.Hider => OwnerTeam.Hider
  | AgentType.Seeker => OwnerTeam.Seeker

/-- The opposing agent type. -/
def otherTeam : AgentType → AgentType
  | AgentType.Hider => AgentType.Seeker
  | AgentType.Seeker => AgentType.Hider

/-! ## Seeker gating (sim.cpp lines 189-193 and 218-222)

Both `movementSystem` and `actionSystem` begin with
```
if (sim_e.e == Entity::none()) return;
if (agent_type == AgentType::Seeker &&
        ctx.data().curEpisodeStep < numPrepSteps - 1) {
    return;
}
```
-/

/-- True when the per-agent system skips this agent because it is a seeker and
the episode step is below `numPrepSteps - 1`. -/
def seekerGated (agentType : AgentType) (curStep : ℕ) : Bool :=
  agentType = AgentType.Seeker ∧ curStep < numPrepSteps - 1

/-! ## movementSystem (sim.cpp lines 186-211) -/

/-- `move_delta_per_bucket = move_discrete_action_max / half_buckets = 60 / 5`. -/
def moveDeltaPerBucket : ℚ := 60 / 5

/-- `turn_delta_per_bucket = turn_discrete_action_max / half_buckets = 15 / 5`. -/
def turnDeltaPerBucket : ℚ := 15 / 5

/-- `movementSystem`: decodes the discrete action into an external force and
torque on the agent's sim entity.  The inputs `hasSim` (whether
`sim_e.e != Entity::none()`) and `curRot` (the agent's `Rotation`) come from
world state; `prev` is the (force, torque) pair currently stored on the sim
entity, returned unchanged when the system early-returns. -/
def movementSystem (curStep : ℕ) (hasSim : Bool) (agentType : AgentType)
    (action : ActionRec) (curRot : QuatQ) (prev : V3 × V3) : V3 × V3 :=
  if ¬hasSim then prev
  else if seekerGated agentType curStep then prev
  else
    let fX : ℚ := moveDeltaPerBucket * ((action.x : ℚ) - 5)
    let fY : ℚ := moveDeltaPerBucket * ((action.y : ℚ) - 5)
    let tZ : ℚ := turnDeltaPerBucket * ((action.r : ℚ) - 5)
    (curRot.rotateVec ⟨fX, fY, 0⟩, ⟨0, 0, tZ⟩)

/-! ## actionSystem (sim.cpp lines 213-313)

The lock branch (lines 224-254) and the grab branch (lines 256-304) both cast a
forward ray of length 2.5 through the external broadphase BVH; the ray result
is a parameter of the embedding.  The grab constraint entity returned by the
external `PhysicsSystem::makeFixedJoint` is modelled as an opaque token, so
`GrabData` is `Option Unit` (`constraintEntity != Entity::none()` iff `some`).
-/

/-- The lock state transition applied to the object hit by the lock ray
(sim.cpp lines 238-252): a static object owned by the acting agent's own team
is released (Dynamic, unowned); a non-static object that is unowned is made
Static and owned by the acting agent's team; anything else is untouched. -/
def lockTransition (agentType : AgentType) (o : ObjState) : ObjState :=
  if o.resp = ResponseType.Static then
    if (agentType = AgentType.Seeker ∧ o.owner = OwnerTeam.Seeker) ∨
        (agentType = AgentType.Hider ∧ o.owner = OwnerTeam.Hider) then
      ⟨OwnerTeam.NoTeam, ResponseType.Dynamic⟩
    else o
  else
    if o.owner = OwnerTeam.NoTeam then
      ⟨teamOf agentType, ResponseType.Static⟩
    else o

/-- The grab state transition (sim.cpp lines 256-304) restricted to the
constraint link: if a constraint exists it is destroyed; otherwise, if the grab
ray hits an unowned dynamic object a fixed joint is created (opaque token). -/
def grabTransition (grab : Option Unit) (grabHit : Option ObjState) :
    Option Unit :=
  match grab with
  | some _ => none
  | none =>
    match grabHit with
    | some o =>
      if o.owner = OwnerTeam.NoTeam ∧ o.resp = ResponseType.Dynamic then
        some ()
      else none
    | none => none

/-- Result of one `actionSystem` invocation for one agent: the agent's action
record after the call, the state of the object hit by the lock ray (if any)
after the call, and the agent's grab link after the call. -/
structure ActionSysResult where
  action : ActionRec
  lockHit : Option ObjState
  grab : Option Unit
deriving DecidableEq, Repr

/-- `actionSystem`: early-returns for missing sim entities and gated seekers;
otherwise applies the lock transition when `action.l == 1` and the lock ray
hits, applies the grab transition when `action.g == 1`, and finally consumes
the action record back to neutral (sim.cpp lines 306-312).  `lockHit` and
`grabHit` carry the ownership/mobility state of the entity hit by the
respective 2.5-length forward ray (`none` = ray miss). -/
def actionSystem (curStep : ℕ) (hasSim : Bool) (agentType : AgentType)
    (action : ActionRec) (lockHit : Option ObjState) (grab : Option Unit)
    (grabHit : Option ObjState) : ActionSysResult :=
  if ¬hasSim then ⟨action, lockHit, grab⟩
  else if seekerGated agentType curStep then ⟨action, lockHit, grab⟩
  else
    let lockHit' :=
      if action.l = 1 then lockHit.map (lockTransition agentType) else lockHit
    let grab' :=
      if action.g = 1 then grabTransition grab grabHit else grab
    ⟨ActionRec.neutral, lockHit', grab'⟩

/-! ## Claims C1, C3, C4: gating, action consumption, lock semantics -/

/-- Helper: the seeker gate is closed (agent skipped) exactly below step
`numPrepSteps - 1 = 95`. -/
theorem seekerGated_iff (step : ℕ) :
    seekerGated AgentType.Seeker step = true ↔ step < numPrepSteps - 1 := by
  simp [seekerGated]

/-- Helper: hiders are never gated. -/
theorem seekerGated_hider (step : ℕ) :
    seekerGated AgentType.Hider step = false := by
  simp [seekerGated]

/-- C1 counterexample: at tick 95, which lies inside the claimed preparation
window `0..P-1` with `P = 96`, a seeker's movement input is NOT ignored: the
movement system overwrites the zero force with a non-zero force decoded from
the action, because the gate in the code is `curEpisodeStep < numPrepSteps - 1`
rather than `< numPrepSteps`. -/
theorem claim1_counterexample :
    movementSystem 95 true AgentType.Seeker ⟨7, 5, 5, 0, 0⟩ QuatQ.id
        (V3.zero, V3.zero) = (⟨24, 0, 0⟩, ⟨0, 0, 0⟩) ∧
    (⟨(24 : ℚ), 0, 0⟩ : V3) ≠ V3.zero := by
  constructor
  · simp only [movementSystem, seekerGated, QuatQ.rotateVec, QuatQ.id,
      V3.cross, V3.smul, V3.add, moveDeltaPerBucket, turnDeltaPerBucket,
      numPrepSteps]
    norm_num
  · simp only [V3.zero, ne_eq, V3.mk.injEq]
    norm_num

/-- C1 (amended): seekers ignore all movement and interaction input for ticks
`0..P-2` (with `P = numPrepSteps = 96`): during those ticks the movement system
leaves the seeker's force and torque untouched and the action system leaves its
action record, lock target and grab link untouched.  From tick `P-1 = 95`
onward a seeker is processed exactly like a hider, and hiders are processed at
every tick. -/
theorem claim1_amended (step : ℕ) (a : ActionRec) (rot : QuatQ)
    (prev : V3 × V3) (lockHit : Option ObjState) (grab : Option Unit)
    (grabHit : Option ObjState) :
    (step < numPrepSteps - 1 →
      movementSystem step true AgentType.Seeker a rot prev = prev ∧
      actionSystem step true AgentType.Seeker a lockHit grab grabHit =
        ⟨a, lockHit, grab⟩) ∧
    (numPrepSteps - 1 ≤ step →
      movementSystem step true AgentType.Seeker a rot prev =
        movementSystem step true AgentType.Hider a rot prev ∧
      (actionSystem step true AgentType.Seeker a lockHit grab
          grabHit).action = ActionRec.neutral) ∧
    movementSystem step true AgentType.Hider a rot prev =
      (rot.rotateVec ⟨moveDeltaPerBucket * ((a.x : ℚ) - 5),
                      moveDeltaPerBucket * ((a.y : ℚ) - 5), 0⟩,
       ⟨0, 0, turnDeltaPerBucket * ((a.r : ℚ) - 5)⟩) := by
  refine ⟨fun h => ?_, fun h => ?_, ?_⟩
  · constructor
    · simp [movementSystem, seekerGated, h]
    · simp [actionSystem, seekerGated, h]
  · have hn : ¬ step < numPrepSteps - 1 := not_lt.mpr h
    constructor
    · simp [movementSystem, seekerGated, hn]
    · simp [actionSystem, seekerGated, hn]
  · simp [movementSystem, seekerGated]

/-- C1 witness: instantiated at tick 10 (gated seeker, inputs untouched) and
tick 95 (seeker processed like a hider). -/
theorem claim1_witness :
    movementSystem 10 true AgentType.Seeker ⟨7, 5, 5, 0, 1⟩ QuatQ.id
        (V3.zero, V3.zero) = (V3.zero, V3.zero) ∧
    (actionSystem 95 true AgentType.Seeker ⟨7, 5, 5, 0, 1⟩ none none
        none).action = ActionRec.neutral :=
  ⟨((claim1_amended 10 ⟨7, 5, 5, 0, 1⟩ QuatQ.id (V3.zero, V3.zero)
      none none none).1 (by decide)).1,
   ((claim1_amended 95 ⟨7, 5, 5, 0, 1⟩ QuatQ.id (V3.zero, V3.zero)
      none none none).2.1 (by decide)).2⟩

/-- C3 counterexample: at tick 0 an active seeker (live sim entity, mask 1) is
gated, so the action system early-returns and its action record is NOT reset to
neutral: an action buffer holding `x = 7` still holds `x = 7` afterwards. -/
theorem claim3_counterexample :
    actionSystem 0 true AgentType.Seeker ⟨7, 5, 5, 0, 0⟩ none none none =
      ⟨⟨7, 5, 5, 0, 0⟩, none, none⟩ ∧
    (⟨7, 5, 5, 0, 0⟩ : ActionRec) ≠ ActionRec.neutral := by
  constructor
  · decide
  · decide

/-- C3 (amended): for every agent the action system actually processes — any
active hider, and any active seeker from tick `numPrepSteps - 1` onward — the
action record reads neutral (x = 5, y = 5, r = 5, g = 0, l = 0) after the
action system has run; gated seekers' records are left unchanged instead. -/
theorem claim3_amended (step : ℕ) (agentType : AgentType) (a : ActionRec)
    (lockHit : Option ObjState) (grab : Option Unit)
    (grabHit : Option ObjState)
    (hg : seekerGated agentType step = false) :
    (actionSystem step true agentType a lockHit grab grabHit).action =
      ActionRec.neutral := by
  simp [actionSystem, hg]

/-- C3 witness: a hider at tick 0 with a non-neutral buffer has the buffer
reset to neutral. -/
theorem claim3_witness :
    (actionSystem 0 true AgentType.Hider ⟨9, 1, 2, 1, 1⟩ none none
        none).action = ActionRec.neutral :=
  claim3_amended 0 AgentType.Hider ⟨9, 1, 2, 1, 1⟩ none none none (by decide)

/-- Helper: the three lock cases of the claim, at the level of the lock state
transition (sim.cpp lines 238-252). -/
theorem lockTransition_cases (agentType : AgentType) (o : ObjState) :
    (o.resp = ResponseType.Dynamic ∧ o.owner = OwnerTeam.NoTeam →
      lockTransition agentType o =
        ⟨teamOf agentType, ResponseType.Static⟩) ∧
    (o.resp = ResponseType.Static ∧ o.owner = teamOf agentType →
      lockTransition agentType o =
        ⟨OwnerTeam.NoTeam, ResponseType.Dynamic⟩) ∧
    (o.resp = ResponseType.Static ∧
        o.owner = teamOf (otherTeam agentType) →
      lockTransition agentType o = o) := by
  obtain ⟨ow, rs⟩ := o
  cases agentType <;> cases ow <;> cases rs <;> exact ⟨by decide, by decide, by decide⟩

/-- C4 (confirmed): when a processed agent issues lock (`action.l == 1`) and
the forward ray hits an object: a mobile (Dynamic) unowned object becomes
Static and owned by the acting agent's team; a Static object owned by the
acting agent's own team becomes Dynamic and unowned; a Static object owned by
the other team is left unchanged in both mobility and ownership. -/
theorem claim4_lock (step : ℕ) (agentType : AgentType) (a : ActionRec)
    (o : ObjState) (grab : Option Unit) (grabHit : Option ObjState)
    (hl : a.l = 1) (hg : seekerGated agentType step = false) :
    (o.resp = ResponseType.Dynamic ∧ o.owner = OwnerTeam.NoTeam →
      (actionSystem step true agentType a (some o) grab grabHit).lockHit =
        some ⟨teamOf agentType, ResponseType.Static⟩) ∧
    (o.resp = ResponseType.Static ∧ o.owner = teamOf agentType →
      (actionSystem step true agentType a (some o) grab grabHit).lockHit =
        some ⟨OwnerTeam.NoTeam, ResponseType.Dynamic⟩) ∧
    (o.resp = ResponseType.Static ∧
        o.owner = teamOf (otherTeam agentType) →
      (actionSystem step true agentType a (some o) grab grabHit).lockHit =
        some o) := by
  have hres : (actionSystem step true agentType a (some o) grab grabHit).lockHit
      = some (lockTransition agentType o) := by
    simp [actionSystem, hg, hl]
  obtain ⟨c1, c2, c3⟩ := lockTransition_cases agentType o
  exact ⟨fun h => by rw [hres, c1 h], fun h => by rw [hres, c2 h],
         fun h => by rw [hres, c3 h]⟩

/-- C4 witness: a hider locking an unowned dynamic object at tick 0
immobilizes it under hider ownership; the seeker's later lock on it is a
no-op; the hider's own second lock releases it. -/
theorem claim4_witness :
    (actionSystem 0 true AgentType.Hider ⟨5, 5, 5, 0, 1⟩
        (some ⟨OwnerTeam.NoTeam, ResponseType.Dynamic⟩) none none).lockHit =
      some ⟨OwnerTeam.Hider, ResponseType.Static⟩ ∧
    (actionSystem 100 true AgentType.Seeker ⟨5, 5, 5, 0, 1⟩
        (some ⟨OwnerTeam.Hider, ResponseType.Static⟩) none none).lockHit =
      some ⟨OwnerTeam.Hider, ResponseType.Static⟩ ∧
    (actionSystem 0 true AgentType.Hider ⟨5, 5, 5, 0, 1⟩
        (some ⟨OwnerTeam.Hider, ResponseType.Static⟩) none none).lockHit =
      some ⟨OwnerTeam.NoTeam, ResponseType.Dynamic⟩ :=
  ⟨(claim4_lock 0 AgentType.Hider ⟨5, 5, 5, 0, 1⟩
      ⟨OwnerTeam.NoTeam, ResponseType.Dynamic⟩ none none (by decide)
      (by decide)).1 (by decide),
   (claim4_lock 100 AgentType.Seeker ⟨5, 5, 5, 0, 1⟩
      ⟨OwnerTeam.Hider, ResponseType.Static⟩ none none (by decide)
      (by decide)).2.2 (by decide),
   (claim4_lock 0 AgentType.Hider ⟨5, 5, 5, 0, 1⟩
      ⟨OwnerTeam.Hider, ResponseType.Static⟩ none none (by decide)
      (by decide)).2.1 (by decide)⟩

/-! ## outputRewardsDonesSystem (sim.cpp lines 671-706) -/

/-- The shared team-advantage scalar as emitted to one agent before the
boundary penalty: `reward_val = hiderTeamReward; if (seeker) reward_val *= -1`
(sim.cpp lines 694-697). -/
def rewardValuePre (agentType : AgentType) (hiderTeamReward : ℚ) : ℚ :=
  if agentType = AgentType.Seeker then -hiderTeamReward else hiderTeamReward

/-- `fabsf(pos.x) >= 18.f || fabsf(pos.y) >= 18.f` (sim.cpp line 701). -/
def outOfBounds (pos : V3) : Bool := 18 ≤ |pos.x| ∨ 18 ≤ |pos.y|

/-- The additive out-of-bounds contribution (`reward_val -= 10.f`). -/
def boundaryPenalty (pos : V3) : ℚ := if outOfBounds pos then -10 else 0

/-- `outputRewardsDonesSystem`: for an agent with a live sim entity, clears
`done` at step 0, emits zero reward and returns early below step
`numPrepSteps - 1`, sets `done` at step `episodeLen - 1`, and otherwise emits
the (possibly negated) team-advantage scalar minus the boundary penalty.
`prev` is the agent's (reward, done) pair before the call. -/
def outputRewardsDonesSystem (curStep : ℕ) (hasSim : Bool)
    (agentType : AgentType) (hiderTeamReward : ℚ) (pos : V3)
    (prev : ℚ × ℤ) : ℚ × ℤ :=
  if ¬hasSim then prev
  else
    let d0 : ℤ := if curStep = 0 then 0 else prev.2
    if curStep < numPrepSteps - 1 then (0, d0)
    else
      let d1 : ℤ := if curStep = episodeLen - 1 then 1 else d0
      let rv := rewardValuePre agentType hiderTeamReward
      let rv' := if outOfBounds pos then rv - 10 else rv
      (rv', d1)

/-- Helper: the reward emitted at or after step `numPrepSteps - 1` decomposes
into the pre-penalty team value plus the boundary penalty. -/
theorem outputRewards_decompose (curStep : ℕ) (agentType : AgentType)
    (htr : ℚ) (pos : V3) (prev : ℚ × ℤ)
    (h : numPrepSteps - 1 ≤ curStep) :
    (outputRewardsDonesSystem curStep true agentType htr pos prev).1 =
      rewardValuePre agentType htr + boundaryPenalty pos := by
  have hn : ¬ curStep < numPrepSteps - 1 := not_lt.mpr h
  by_cases hb : outOfBounds pos = true
  · simp [outputRewardsDonesSystem, boundaryPenalty, hn, hb]
    ring
  · simp [outputRewardsDonesSystem, boundaryPenalty, hn, hb]

/-- Helper: the done flag written by one call, as a function of the step index
and the previous value only. -/
theorem outputDones_char (curStep : ℕ) (agentType : AgentType) (htr : ℚ)
    (pos : V3) (prev : ℚ × ℤ) :
    (outputRewardsDonesSystem curStep true agentType htr pos prev).2 =
      if curStep = 0 then 0
      else if curStep = episodeLen - 1 then 1 else prev.2 := by
  rcases Nat.eq_zero_or_pos curStep with h0 | h0
  · subst h0
    norm_num [outputRewardsDonesSystem, numPrepSteps, episodeLen]
  · have h0' : ¬ curStep = 0 := Nat.pos_iff_ne_zero.mp h0
    by_cases hlt : curStep < numPrepSteps - 1
    · have hne : ¬ curStep = episodeLen - 1 := by
        intro he
        rw [he] at hlt
        norm_num [numPrepSteps, episodeLen] at hlt
      simp [outputRewardsDonesSystem, hlt, h0', hne]
    · simp [outputRewardsDonesSystem, hlt, h0']

/-- Claim C5 (confirmed): at every tick at or after the preparation phase, the
reward emitted to an agent is the pre-penalty team value plus the boundary
penalty, the hider's pre-penalty value is the shared scalar, the seeker's is
its exact negation, and the two pre-penalty values sum to zero. -/
theorem claim5_zero_sum (t : ℕ) (htr : ℚ) (posH posS : V3)
    (prevH prevS : ℚ × ℤ) (ht : numPrepSteps ≤ t) :
    (outputRewardsDonesSystem t true AgentType.Hider htr posH prevH).1 =
      rewardValuePre AgentType.Hider htr + boundaryPenalty posH ∧
    (outputRewardsDonesSystem t true AgentType.Seeker htr posS prevS).1 =
      rewardValuePre AgentType.Seeker htr + boundaryPenalty posS ∧
    rewardValuePre AgentType.Hider htr = htr ∧
    rewardValuePre AgentType.Seeker htr = -htr ∧
    rewardValuePre AgentType.Hider htr +
      rewardValuePre AgentType.Seeker htr = 0 := by
  have h' : numPrepSteps - 1 ≤ t := le_trans (Nat.sub_le _ _) ht
  refine ⟨outputRewards_decompose t AgentType.Hider htr posH prevH h',
          outputRewards_decompose t AgentType.Seeker htr posS prevS h',
          by simp [rewardValuePre], by simp [rewardValuePre],
          by simp [rewardValuePre]⟩

/-- C5 witness: instantiated at tick 100 with shared scalar -1. -/
theorem claim5_witness :
    (outputRewardsDonesSystem 100 true AgentType.Hider (-1) V3.zero
        (0, 0)).1 =
      rewardValuePre AgentType.Hider (-1) + boundaryPenalty V3.zero ∧
    (outputRewardsDonesSystem 100 true AgentType.Seeker (-1) V3.zero
        (0, 0)).1 =
      rewardValuePre AgentType.Seeker (-1) + boundaryPenalty V3.zero ∧
    rewardValuePre AgentType.Hider (-1) = -1 ∧
    rewardValuePre AgentType.Seeker (-1) = -(-1) ∧
    rewardValuePre AgentType.Hider (-1) +
      rewardValuePre AgentType.Seeker (-1) = 0 :=
  claim5_zero_sum 100 (-1) V3.zero V3.zero (0, 0) (0, 0) (by decide)

/-! ## Claim C6: episode boundary behaviour of reward and done -/

/-- Reward/done trace of one agent slot that keeps a live sim entity across
the ticks 0, 1, 2, ... of one episode: at each tick the pair is rewritten by
`outputRewardsDonesSystem` from its previous value.  `htr t` and `pos t` are
the shared team-advantage scalar and the agent's position at tick `t`. -/
def agentRDTrace (agentType : AgentType) (htr : ℕ → ℚ) (pos : ℕ → V3)
    (init : ℚ × ℤ) : ℕ → ℚ × ℤ
  | 0 => outputRewardsDonesSystem 0 true agentType (htr 0) (pos 0) init
  | t + 1 => outputRewardsDonesSystem (t + 1) true agentType (htr (t + 1))
      (pos (t + 1)) (agentRDTrace agentType htr pos init t)

/-- Claim C6 (confirmed): within an episode of length `L = 240` with
preparation length `P = 96`, for an agent slot that stays live: the done flag
is 0 after every tick `0..L-2` and exactly 1 after tick `L-1`; it is cleared
again at tick 0 of the next episode; and the reward is exactly 0 at every tick
`0..P-2`, for every initial (reward, done) pair, every sequence of shared
scalars and every sequence of positions. -/
theorem claim6_episode_boundaries (agentType : AgentType) (htr : ℕ → ℚ)
    (pos : ℕ → V3) (init : ℚ × ℤ) :
    (∀ t, t ≤ episodeLen - 2 →
      (agentRDTrace agentType htr pos init t).2 = 0) ∧
    (agentRDTrace agentType htr pos init (episodeLen - 1)).2 = 1 ∧
    (∀ (htr' : ℚ) (pos' : V3),
      (outputRewardsDonesSystem 0 true agentType htr' pos'
        (agentRDTrace agentType htr pos init (episodeLen - 1))).2 = 0) ∧
    (∀ t, t ≤ numPrepSteps - 2 →
      (agentRDTrace agentType htr pos init t).1 = 0) := by
  have hdone : ∀ t, t ≤ episodeLen - 2 →
      (agentRDTrace agentType htr pos init t).2 = 0 := by
    intro t
    induction t with
    | zero =>
      intro _
      simp [agentRDTrace, outputDones_char]
    | succ n ih =>
      intro h
      have hn : n ≤ episodeLen - 2 := le_trans (Nat.le_succ n) h
      have hne : ¬ (n + 1 = episodeLen - 1) := by
        intro he
        rw [he] at h
        simp [episodeLen] at h
      simp only [agentRDTrace, outputDones_char, Nat.succ_ne_zero, if_false,
        hne, ih hn]
  have htrace_succ : ∀ t : ℕ, agentRDTrace agentType htr pos init (t + 1) =
      outputRewardsDonesSystem (t + 1) true agentType (htr (t + 1))
        (pos (t + 1)) (agentRDTrace agentType htr pos init t) :=
    fun _ => rfl
  refine ⟨hdone, ?_, ?_, ?_⟩
  · rw [show episodeLen - 1 = 238 + 1 from rfl, htrace_succ 238,
      outputDones_char]
    norm_num [episodeLen]
  · intro htr' pos'
    simp [outputDones_char]
  · intro t ht
    have hlt : t < numPrepSteps - 1 := by
      have : numPrepSteps - 2 < numPrepSteps - 1 := by decide
      omega
    cases t with
    | zero =>
      simp [agentRDTrace, outputRewardsDonesSystem, hlt]
    | succ n =>
      simp [agentRDTrace, outputRewardsDonesSystem, hlt]

/-- C6 witness: with all-ones scalars, origin positions and a garbage initial
pair, done is 0 after tick 100, 1 after tick 239, cleared again at the next
tick 0, and the reward at tick 50 is 0. -/
theorem claim6_witness :
    (agentRDTrace AgentType.Hider (fun _ => 1) (fun _ => V3.zero)
      (3, 7) 100).2 = 0 ∧
    (agentRDTrace AgentType.Hider (fun _ => 1) (fun _ => V3.zero)
      (3, 7) 239).2 = 1 ∧
    (outputRewardsDonesSystem 0 true AgentType.Hider 1 V3.zero
      (agentRDTrace AgentType.Hider (fun _ => 1) (fun _ => V3.zero)
        (3, 7) 239)).2 = 0 ∧
    (agentRDTrace AgentType.Hider (fun _ => 1) (fun _ => V3.zero)
      (3, 7) 50).1 = 0 :=
  ⟨(claim6_episode_boundaries AgentType.Hider (fun _ => 1)
      (fun _ => V3.zero) (3, 7)).1 100 (by decide),
   (claim6_episode_boundaries AgentType.Hider (fun _ => 1)
      (fun _ => V3.zero) (3, 7)).2.1,
   (claim6_episode_boundaries AgentType.Hider (fun _ => 1)
      (fun _ => V3.zero) (3, 7)).2.2.1 1 V3.zero,
   (claim6_episode_boundaries AgentType.Hider (fun _ => 1)
      (fun _ => V3.zero) (3, 7)).2.2.2 50 (by decide)⟩

/-! ## RNG sampling and the procedural level generator (level_gen.cpp)

`madrona::RNG::sampleI32(lo, hi)` is an engine primitive drawing uniformly
from the half-open range `[lo, hi)`; the call sites in this repository fix
that semantics (`rng.sampleI32(ctx.data().minHiders, ctx.data().maxHiders +
1)` in `resetSystem` must be able to return `maxHiders` but never
`maxHiders + 1`, and `rng.sampleI32(3, 10)` realises the documented "3 - 9
movable boxes").  It is modelled on a raw draw `u` from the episode stream. -/

/-- `RNG::sampleI32(lo, hi)`: `lo + (u mod (hi - lo))` for a non-empty range;
an empty range returns `lo`. -/
def sampleI32 (lo hi : ℤ) (u : ℕ) : ℤ :=
  if hi ≤ lo then lo else lo + (u : ℤ) % (hi - lo)

/-- The three box counts sampled at the top of `generateTrainingEnvironment`
(level_gen.cpp lines 61-67): `total_num_boxes = rng.sampleI32(3, 10)`,
`num_elongated = rng.sampleI32(3, total_num_boxes)`,
`num_cubes = total_num_boxes - num_elongated`.  `s` is the episode RNG's
stream of raw draws, consumed in order. -/
structure BoxCounts where
  total : ℤ
  elongated : ℤ
  cubes : ℤ
deriving DecidableEq, Repr

def sampleBoxCounts (s : ℕ → ℕ) : BoxCounts :=
  let total := sampleI32 3 10 (s 0)
  let elongated := sampleI32 3 total (s 1)
  ⟨total, elongated, total - elongated⟩

/-- `const CountT max_rejections = 20;` (level_gen.cpp line 100). -/
def maxRejections : ℕ := 20

/-- One object's placement loop (level_gen.cpp lines 102-133 and the analogous
cube/ramp/agent loops): starting from `rejections = 0`, each iteration samples
a pose and accepts it when its bounding box overlaps nothing placed so far or
when `rejections == max_rejections`; otherwise it increments `rejections` and
retries.  `ok k` abstracts the overlap check `checkOverlap(aabb)` for the pose
sampled on the iteration whose rejection counter is `k` (the poses and the
AABBs of previously placed objects live in the external physics data).  The
function returns the final rejection counter, i.e. the index of the accepted
attempt; `fuel` bounds the recursion and is never exhausted when it exceeds
`maxRejections` minus the starting counter. -/
def placeLoop (ok : ℕ → Bool) : ℕ → ℕ → ℕ
  | 0, rejections => rejections
  | fuel + 1, rejections =>
    if ok rejections ∨ rejections = maxRejections then rejections
    else placeLoop ok fuel (rejections + 1)

/-- Index of the accepted attempt for one object (`while (true)` entered with
`rejections = 0`). -/
def placeObjectIdx (ok : ℕ → Bool) : ℕ := placeLoop ok (maxRejections + 1) 0

/-- Number of poses sampled for one object: attempts `0..placeObjectIdx` are
each sampled once. -/
def placeAttempts (ok : ℕ → Bool) : ℕ := placeObjectIdx ok + 1

/-- Result of the procedural generator relevant to the count/termination
claims: the accepted attempt index of every placed box, ramp, hider and seeker
(in placement order), and the live counts written back into the world
(`numActiveBoxes`, `numActiveRamps` at level_gen.cpp lines 178 and 210;
`numActiveAgents` incremented once per `makeAgent`). -/
structure GenResult where
  boxes : List ℕ
  ramps : List ℕ
  hiders : List ℕ
  seekers : List ℕ
  numActiveBoxes : ℤ
  numActiveRamps : ℕ
  numActiveAgents : ℕ
deriving DecidableEq, Repr

/-- `generateTrainingEnvironment` (level_gen.cpp lines 55-297), restricted to
placement structure: samples the box counts, then places `total` boxes
(elongated first, then cubes), exactly `consts::maxRamps` ramps, then
`num_hiders` hiders and `num_seekers` seekers, each through its own rejection
loop.  `okObj i k` abstracts the overlap check of global object number `i` on
its attempt `k`. -/
def generateTrainingEnvironment (s : ℕ → ℕ) (okObj : ℕ → ℕ → Bool)
    (numHiders numSeekers : ℕ) : GenResult :=
  let c := sampleBoxCounts s
  let nBoxes := c.total.toNat
  let boxes := (List.range nBoxes).map (fun i => placeObjectIdx (okObj i))
  let ramps := (List.range maxRamps).map
    (fun i => placeObjectIdx (okObj (nBoxes + i)))
  let hiders := (List.range numHiders).map
    (fun i => placeObjectIdx (okObj (nBoxes + maxRamps + i)))
  let seekers := (List.range numSeekers).map
    (fun i => placeObjectIdx (okObj (nBoxes + maxRamps + numHiders + i)))
  ⟨boxes, ramps, hiders, seekers, c.total, maxRamps,
    numHiders + numSeekers⟩

/-! ## World construction validation (sim.cpp lines 986-992, C9) -/

/-- The team-size configuration received by the world constructor. -/
structure SimConfig where
  minHiders : ℤ
  maxHiders : ℤ
  minSeekers : ℤ
  maxSeekers : ℤ
deriving DecidableEq, Repr

/-- `maxAgentsPerWorld = cfg.maxHiders + cfg.maxSeekers;` (sim.cpp line 990). -/
def maxAgentsPerWorld (cfg : SimConfig) : ℤ := cfg.maxHiders + cfg.maxSeekers

/-- The only capacity validation the constructor performs:
`assert(maxAgentsPerWorld <= consts::maxAgents && maxAgentsPerWorld > 0);`
(sim.cpp line 992). -/
def simConstructorAssert (cfg : SimConfig) : Bool :=
  maxAgentsPerWorld cfg ≤ (maxAgents : ℤ) ∧ 0 < maxAgentsPerWorld cfg

/-- A team-size range that exceeds the fixed per-team handle tables
`Entity hiders[3];` / `Entity seekers[3];` of the Sim world state (sim.hpp
lines 269-272): a sampled count in `[minHiders, maxHiders]` (resp. seekers)
can then overflow its table. -/
def teamCapacityViolated (cfg : SimConfig) : Bool :=
  (hiderTableCapacity : ℤ) < cfg.maxHiders ∨
  (seekerTableCapacity : ℤ) < cfg.maxSeekers

/-! ## Claims C7, C8, C9, C10 -/

/-- Helper: range of `sampleI32` on a non-empty range. -/
theorem sampleI32_mem (lo hi : ℤ) (u : ℕ) (h : lo < hi) :
    lo ≤ sampleI32 lo hi u ∧ sampleI32 lo hi u < hi := by
  unfold sampleI32
  rw [if_neg (not_le.mpr h)]
  have e0 : 0 ≤ (u : ℤ) % (hi - lo) := Int.emod_nonneg _ (by omega)
  have e1 : (u : ℤ) % (hi - lo) < hi - lo := Int.emod_lt_of_pos _ (by omega)
  omega

/-- Helper: `sampleI32` on an empty range returns the lower bound. -/
theorem sampleI32_empty (lo hi : ℤ) (u : ℕ) (h : hi ≤ lo) :
    sampleI32 lo hi u = lo := by
  unfold sampleI32
  rw [if_pos h]

/-- C7 counterexample: with the first raw draw fixed so that the total box
count is 9, the elongated sub-count ranges over exactly `{3, ..., 8}` as the
second raw draw varies over a full period of the sampler — the value 9 (= the
total, which the claim's "uniformly between 3 and the total" would admit, and
the only value giving zero cubes) is never drawn, because
`rng.sampleI32(3, total_num_boxes)` excludes its upper bound. -/
theorem claim7_counterexample :
    (sampleBoxCounts (fun i => if i = 0 then 6 else 0)).total = 9 ∧
    (List.range 6).map
        (fun v => (sampleBoxCounts (fun i => if i = 0 then 6 else v)).elongated)
      = [3, 4, 5, 6, 7, 8] ∧
    ¬ (9 : ℤ) ∈ [(3 : ℤ), 4, 5, 6, 7, 8] := by
  refine ⟨by decide, ?_, by decide⟩
  decide

/-- C7 (amended): the total movable-box count is drawn uniformly from
`{3, ..., 9}` and the elongated sub-count from the upper-exclusive range
`{3, ..., total - 1}` (when the total is 3 the empty sampler range returns 3),
so every episode has at least 3 elongated boxes, exactly total-minus-elongated
cube boxes (at least one cube whenever the total exceeds 3), and — contrary to
the claim's inclusive reading — never zero cubes with a total above 3. -/
theorem claim7_amended (s : ℕ → ℕ) :
    3 ≤ (sampleBoxCounts s).total ∧
    (sampleBoxCounts s).total ≤ (maxBoxes : ℤ) ∧
    3 ≤ (sampleBoxCounts s).elongated ∧
    (3 < (sampleBoxCounts s).total →
      (sampleBoxCounts s).elongated < (sampleBoxCounts s).total) ∧
    ((sampleBoxCounts s).total = 3 → (sampleBoxCounts s).elongated = 3) ∧
    (sampleBoxCounts s).elongated + (sampleBoxCounts s).cubes =
      (sampleBoxCounts s).total ∧
    0 ≤ (sampleBoxCounts s).cubes := by
  obtain ⟨ht1, ht2⟩ := sampleI32_mem 3 10 (s 0) (by norm_num)
  simp only [sampleBoxCounts, maxBoxes]
  by_cases hc : sampleI32 3 10 (s 0) ≤ 3
  · rw [sampleI32_empty 3 _ (s 1) hc]
    omega
  · obtain ⟨he1, he2⟩ := sampleI32_mem 3 _ (s 1) (not_le.mp hc)
    omega

/-- C7 witness: with draws (6, 2) the total is 9, the elongated sub-count is
strictly below it. -/
theorem claim7_witness :
    (sampleBoxCounts (fun i => if i = 0 then 6 else 2)).elongated <
      (sampleBoxCounts (fun i => if i = 0 then 6 else 2)).total :=
  (claim7_amended (fun i => if i = 0 then 6 else 2)).2.2.2.1 (by decide)

/-- Helper: full characterisation of the rejection loop, by induction on the
fuel: with enough fuel the loop stops at a counter value that is at most
`maxRejections`, at least the starting value, satisfies the accept condition,
and is the least such counter (every earlier attempt really overlapped). -/
theorem placeLoop_spec (ok : ℕ → Bool) :
    ∀ fuel r, r ≤ maxRejections → maxRejections - r < fuel →
      placeLoop ok fuel r ≤ maxRejections ∧
      r ≤ placeLoop ok fuel r ∧
      (ok (placeLoop ok fuel r) = true ∨
        placeLoop ok fuel r = maxRejections) ∧
      (∀ k, r ≤ k → k < placeLoop ok fuel r → ok k = false) := by
  intro fuel
  induction fuel with
  | zero => intro r _ hf; omega
  | succ f ih =>
    intro r hr hf
    by_cases hacc : ok r = true ∨ r = maxRejections
    · have heq : placeLoop ok (f + 1) r = r := by
        simp only [placeLoop]
        rw [if_pos hacc]
      rw [heq]
      exact ⟨hr, le_refl r, hacc, fun k hk1 hk2 => absurd hk2 (by omega)⟩
    · have hok : ok r = false := by
        rcases Bool.eq_false_or_eq_true (ok r) with h | h
        · exact absurd (Or.inl h) hacc
        · exact h
      have hne : r ≠ maxRejections := fun h => hacc (Or.inr h)
      have heq : placeLoop ok (f + 1) r = placeLoop ok f (r + 1) := by
        simp only [placeLoop]
        rw [if_neg hacc]
      obtain ⟨a, b, c, d⟩ := ih (r + 1) (by omega) (by omega)
      rw [heq]
      refine ⟨a, by omega, c, fun k hk1 hk2 => ?_⟩
      rcases eq_or_lt_of_le hk1 with he | hlt
      · rw [← he]; exact hok
      · exact d k (by omega) hk2

/-- C8 (amended): every object placement terminates with at most
`maxRejections + 1 = 21` position-sampling attempts — up to 20 rejected poses
followed by a forced acceptance — the accepted pose is either overlap-free or
the forced 21st, every earlier pose really overlapped, and generation places
exactly the sampled counts: `total` boxes, `maxRamps` ramps, `num_hiders`
hiders and `num_seekers` seekers. -/
theorem claim8_amended (ok : ℕ → Bool) (s : ℕ → ℕ) (okObj : ℕ → ℕ → Bool)
    (numHiders numSeekers : ℕ) :
    placeObjectIdx ok ≤ maxRejections ∧
    placeAttempts ok ≤ maxRejections + 1 ∧
    (ok (placeObjectIdx ok) = true ∨ placeObjectIdx ok = maxRejections) ∧
    (∀ k, k < placeObjectIdx ok → ok k = false) ∧
    (generateTrainingEnvironment s okObj numHiders numSeekers).boxes.length
      = (sampleBoxCounts s).total.toNat ∧
    (generateTrainingEnvironment s okObj numHiders numSeekers).ramps.length
      = maxRamps ∧
    (generateTrainingEnvironment s okObj numHiders numSeekers).hiders.length
      = numHiders ∧
    (generateTrainingEnvironment s okObj numHiders numSeekers).seekers.length
      = numSeekers := by
  obtain ⟨a, b, c, d⟩ :=
    placeLoop_spec ok (maxRejections + 1) 0 (by omega) (by omega)
  unfold placeObjectIdx placeAttempts
  refine ⟨a, by unfold placeObjectIdx; omega, c,
    fun k hk => d k (by omega) hk, ?_, ?_, ?_, ?_⟩ <;>
    simp [generateTrainingEnvironment]

/-- C8 counterexample: for an object whose every sampled pose overlaps, the
loop samples 21 poses (20 rejections, then the forced acceptance), exceeding
the claimed bound of 20 position-sampling attempts per object. -/
theorem claim8_counterexample :
    placeAttempts (fun _ => false) = 21 ∧
    ¬ placeAttempts (fun _ => false) ≤ 20 := by
  decide

/-- C8 witness: with an always-overlapping oracle, attempt 5 is indeed
rejected, and the accepted index stays within the budget. -/
theorem claim8_witness :
    (fun _ => (false : Bool)) 5 = false ∧
    placeObjectIdx (fun _ => false) ≤ maxRejections ∧
    (generateTrainingEnvironment (fun _ => 0) (fun _ _ => false) 2
        3).hiders.length = 2 :=
  ⟨(claim8_amended (fun _ => false) (fun _ => 0) (fun _ _ => false) 2
      3).2.2.2.1 5 (by decide),
   (claim8_amended (fun _ => false) (fun _ => 0) (fun _ _ => false) 2 3).1,
   (claim8_amended (fun _ => false) (fun _ => 0) (fun _ _ => false) 2
      3).2.2.2.2.2.2.1⟩

/-- C9: the world constructor's only capacity validation is
`assert(maxAgentsPerWorld <= consts::maxAgents && maxAgentsPerWorld > 0)`.
The configuration `maxHiders = maxSeekers = 8` passes it (8 + 8 = 16 ≤ 16)
although each team-size range exceeds its per-team handle table
`Entity hiders[3]` / `Entity seekers[3]`, and with `minHiders = 8` the sampled
hider count is 8 for every draw — the simulation starts and then overflows the
table, contradicting the claim that such configurations are rejected fatally
at construction. -/
theorem claim9_code_bug :
    simConstructorAssert ⟨8, 8, 8, 8⟩ = true ∧
    teamCapacityViolated ⟨8, 8, 8, 8⟩ = true ∧
    sampleI32 8 (8 + 1) 0 = 8 ∧
    sampleI32 8 (8 + 1) 12345 = 8 ∧
    (hiderTableCapacity : ℤ) < 8 := by
  decide

/-- C10 (confirmed): the procedural training generator always places exactly
`consts::maxRamps = 2` ramps and sets `numActiveRamps = 2`, independently of
the RNG stream, the overlap outcomes and the team sizes; hence every ramp
observation slot index is below the live-ramp count. -/
theorem claim10_ramps_constant (s s' : ℕ → ℕ) (okObj okObj' : ℕ → ℕ → Bool)
    (numHiders numSeekers numHiders' numSeekers' : ℕ) :
    (generateTrainingEnvironment s okObj numHiders
        numSeekers).numActiveRamps = maxRamps ∧
    (generateTrainingEnvironment s okObj numHiders
        numSeekers).ramps.length = 2 ∧
    (generateTrainingEnvironment s okObj numHiders
        numSeekers).numActiveRamps =
      (generateTrainingEnvironment s' okObj' numHiders'
        numSeekers').numActiveRamps ∧
    (∀ i, i < maxRamps →
      i < (generateTrainingEnvironment s okObj numHiders
        numSeekers).numActiveRamps) := by
  simp [generateTrainingEnvironment, maxRamps]

/-- C10 witness: ramp slot 1 (the last) is backed by a live ramp. -/
theorem claim10_witness :
    (generateTrainingEnvironment (fun _ => 0) (fun _ _ => true) 1
        1).numActiveRamps = maxRamps ∧
    1 < (generateTrainingEnvironment (fun _ => 0) (fun _ _ => true) 1
        1).numActiveRamps :=
  ⟨(claim10_ramps_constant (fun _ => 0) (fun _ => 0) (fun _ _ => true)
      (fun _ _ => true) 1 1 1 1).1,
   (claim10_ramps_constant (fun _ => 0) (fun _ => 0) (fun _ _ => true)
      (fun _ _ => true) 1 1 1 1).2.2.2 1 (by decide)⟩

/-! ## Observation and visibility systems (sim.cpp lines 315-573, C2)

`collectObservationsSystem` and `computeVisibilitySystem` run once per tick for
every `AgentInterface` row.  Both early-return when the interface has no
backing sim entity.  For active interfaces they rewrite the exported relative
observation arrays and visibility masks; entries indexed at or beyond the live
counts are written as zero inside the loops.  The per-target visibility
predicate `checkVisibility` (field-of-view cone plus a ray cast through the
external broadphase BVH) is abstracted as an oracle, and the transcendental
`atan2f` of the yaw computation as a function parameter applied to the exact
rational arguments computed by the code. -/

def V3.sub (a b : V3) : V3 := ⟨a.x - b.x, a.y - b.y, a.z - b.z⟩

/-- Hamilton product, `madrona::math::Quat::operator*`. -/
def QuatQ.mul (a b : QuatQ) : QuatQ :=
  ⟨a.w * b.w - a.x * b.x - a.y * b.y - a.z * b.z,
   a.w * b.x + a.x * b.w + a.y * b.z - a.z * b.y,
   a.w * b.y - a.x * b.z + a.y * b.w + a.z * b.x,
   a.w * b.z + a.x * b.y - a.y * b.x + a.z * b.w⟩

/-- `struct AgentObservation { Vector2 pos; Vector2 vel; };` -/
structure AgentObservation where
  pos : V2
  vel : V2
deriving DecidableEq, Repr

def AgentObservation.zero : AgentObservation := ⟨V2.zero, V2.zero⟩

/-- `struct BoxObservation { Vector2 pos; Vector2 vel; Vector2 boxSize;
float boxRotation; };` -/
structure BoxObservation where
  pos : V2
  vel : V2
  boxSize : V2
  boxRotation : ℚ
deriving DecidableEq, Repr

def BoxObservation.zero : BoxObservation := ⟨V2.zero, V2.zero, V2.zero, 0⟩

/-- `struct RampObservation { Vector2 pos; Vector2 vel; float rampRotation; };` -/
structure RampObservation where
  pos : V2
  vel : V2
  rampRotation : ℚ
deriving DecidableEq, Repr

def RampObservation.zero : RampObservation := ⟨V2.zero, V2.zero, 0⟩

/-- Pose data of a sim entity read by the observation code: `Position`,
`Velocity.linear`, `Rotation`. -/
structure EntityPose where
  pos : V3
  vel : V3
  rot : QuatQ
deriving DecidableEq, Repr

/-- The per-world state read by the observation systems: the episode step,
the live counts and the pose/size tables (`ctx.data().numActiveBoxes`,
`boxes`, `boxSizes`, `numActiveRamps`, `ramps`, `numActiveAgents`,
`agentInterfaces` with each interface's sim entity pose). -/
structure ObsWorld where
  curStep : ℕ
  numActiveBoxes : ℕ
  boxPose : ℕ → EntityPose
  boxSizes : ℕ → V2
  numActiveRamps : ℕ
  rampPose : ℕ → EntityPose
  numActiveAgents : ℕ
  agentPose : ℕ → EntityPose

/-- One `AgentInterface` row's exported per-agent state touched by the
observation systems: the sim-entity link, active mask, prep counter, relative
observation arrays and visibility masks (arrays modelled as index functions;
the systems only write indices below the fixed capacities). -/
structure AgentIface where
  simE : Bool
  mask : ℚ
  prepCounter : ℤ
  agentObs : ℕ → AgentObservation
  boxObs : ℕ → BoxObservation
  rampObs : ℕ → RampObservation
  agentVis : ℕ → ℚ
  boxVis : ℕ → ℚ
  rampVis : ℕ → ℚ

/-- Position of the other entity relative to the agent, rotated into the
agent's heading frame: `agent_rot.inv().rotateVec(other_pos - agent_pos)`,
keeping the x/y components. -/
def relObsPos (self other : EntityPose) : V2 :=
  let rel := self.rot.inv.rotateVec (other.pos.sub self.pos)
  ⟨rel.x, rel.y⟩

/-- Relative velocity in the agent's heading frame:
`agent_rot.inv().rotateVec(other_vel)`. -/
def relObsVel (self other : EntityPose) : V2 :=
  let rel := self.rot.inv.rotateVec other.vel
  ⟨rel.x, rel.y⟩

/-- The yaw of the relative rotation: `atan2f(2*(w*z + x*y),
1 - 2*(y*y + z*z))` of `relative_rot = agent_rot * other_rot.inv()`. -/
def relRotAngle (atan2 : ℚ → ℚ → ℚ) (selfRot otherRot : QuatQ) : ℚ :=
  let r := selfRot.mul otherRot.inv
  atan2 (2 * (r.w * r.z + r.x * r.y)) (1 - 2 * (r.y * r.y + r.z * r.z))

/-- Shared shape of the two other-agent output loops (sim.cpp lines 398-427
and 546-571): iterate over all `maxAgents` slots, writing `inactive` for every
slot at or beyond the live count, nothing for the agent itself, and `f i` for
every other active slot, appending in slot order at the running output
index `num_other_agents++`. -/
def otherAgentWrites {α : Type} (num selfIdx : ℕ) (inactive : α)
    (f : ℕ → α) : List α :=
  (List.range maxAgents).flatMap (fun i =>
    if num ≤ i then [inactive]
    else if i = selfIdx then []
    else [f i])

/-- The sequence of values written into the other-agent observation array by
the loop at sim.cpp lines 398-427: one zero record for every slot index at or
beyond the live agent count, nothing for the agent itself, and the computed
relative record for every other active agent, in slot order. -/
def agentObsEntries (w : ObsWorld) (selfIdx : ℕ) : List AgentObservation :=
  otherAgentWrites w.numActiveAgents selfIdx AgentObservation.zero
    (fun i => ⟨relObsPos (w.agentPose selfIdx) (w.agentPose i),
               relObsVel (w.agentPose selfIdx) (w.agentPose i)⟩)

/-- `collectObservationsSystem` (sim.cpp lines 315-428): early-returns when
the interface has no sim entity; otherwise refreshes the prep counter (while
`cur_step <= numPrepSteps`) and rewrites the box, ramp and other-agent
observation arrays, zero-filling box/ramp entries beyond the live counts. -/
def collectObservationsSystem (atan2 : ℚ → ℚ → ℚ) (w : ObsWorld)
    (selfIdx : ℕ) (r : AgentIface) : AgentIface :=
  if ¬ r.simE then r
  else
    let self := w.agentPose selfIdx
    let entries := agentObsEntries w selfIdx
    { r with
      prepCounter :=
        if w.curStep ≤ numPrepSteps then (numPrepSteps : ℤ) - w.curStep
        else r.prepCounter
      boxObs := fun i =>
        if i < maxBoxes then
          if i < w.numActiveBoxes then
            ⟨relObsPos self (w.boxPose i), relObsVel self (w.boxPose i),
             w.boxSizes i, relRotAngle atan2 self.rot (w.boxPose i).rot⟩
          else BoxObservation.zero
        else r.boxObs i
      rampObs := fun i =>
        if i < maxRamps then
          if i < w.numActiveRamps then
            ⟨relObsPos self (w.rampPose i), relObsVel self (w.rampPose i),
             relRotAngle atan2 self.rot (w.rampPose i).rot⟩
          else RampObservation.zero
        else r.rampObs i
      agentObs := fun k =>
        if k < maxAgents - 1 then entries.getD k (r.agentObs k)
        else r.agentObs k }

/-- The sequence of values written into the other-agent visibility mask by
the loop at sim.cpp lines 546-571 (CPU path): zero for every slot at or
beyond the live count, nothing for the agent itself, and the oracle's verdict
for every other active agent. -/
def agentVisEntries (w : ObsWorld) (selfIdx : ℕ) (visAgent : ℕ → Bool) :
    List ℚ :=
  otherAgentWrites w.numActiveAgents selfIdx (0 : ℚ)
    (fun i => if visAgent i then (1 : ℚ) else 0)

/-- `computeVisibilitySystem` (sim.cpp lines 430-573, CPU path): early-returns
when the interface has no sim entity; otherwise writes the box, ramp and
other-agent visibility masks, zero for entries at or beyond the live counts.
`visBox`, `visRamp` and `visAgent` abstract `checkVisibility` for each target
(cone test plus first-hit ray cast through the external BVH). -/
def computeVisibilitySystem (w : ObsWorld) (selfIdx : ℕ)
    (visBox visRamp visAgent : ℕ → Bool) (r : AgentIface) : AgentIface :=
  if ¬ r.simE then r
  else
    let entries := agentVisEntries w selfIdx visAgent
    { r with
      boxVis := fun i =>
        if i < maxBoxes then
          if i < w.numActiveBoxes then (if visBox i then (1 : ℚ) else 0)
          else 0
        else r.boxVis i
      rampVis := fun i =>
        if i < maxRamps then
          if i < w.numActiveRamps then (if visRamp i then (1 : ℚ) else 0)
          else 0
        else r.rampVis i
      agentVis := fun k =>
        if k < maxAgents - 1 then entries.getD k (r.agentVis k)
        else r.agentVis k }

/-- The deactivation loop at the end of `generateEnvironment` (level_gen.cpp
lines 312-319): every interface slot at or beyond the sampled agent count gets
`SimEntity = Entity::none()` and `AgentActiveMask = 0` — no other field of the
slot is written. -/
def deactivateAgentSlot (r : AgentIface) : AgentIface :=
  { r with simE := false, mask := 0 }

/-! ## Structure of the other-agent write sequence -/

/-- The writes of the active prefix of the other-agent loop. -/
def activeAgentWrites {α : Type} (num selfIdx : ℕ) (f : ℕ → α) : List α :=
  (List.range num).flatMap (fun i => if i = selfIdx then [] else [f i])

/-- Helper: a constant singleton flatMap is a replicate. -/
theorem flatMap_const_singleton {α : Type} (l : List ℕ) (a : α) :
    l.flatMap (fun _ => [a]) = List.replicate l.length a := by
  induction l with
  | nil => rfl
  | cons x xs ih => simp [List.replicate_succ, ih]

/-- Helper: the other-agent write sequence splits into the active-prefix
writes followed by the zero padding for the slots beyond the live count. -/
theorem otherAgentWrites_split {α : Type} (num selfIdx : ℕ) (inactive : α)
    (f : ℕ → α) (hnum : num ≤ maxAgents) :
    otherAgentWrites num selfIdx inactive f =
      activeAgentWrites num selfIdx f ++
        List.replicate (maxAgents - num) inactive := by
  unfold otherAgentWrites activeAgentWrites
  have hr : List.range maxAgents =
      List.range num ++ List.map (fun x => num + x)
        (List.range (maxAgents - num)) := by
    rw [← List.range_add]
    congr 1
    omega
  rw [hr, List.flatMap_append, List.flatMap_map]
  congr 1
  · apply List.flatMap_congr
    intro i hi
    have hlt : i < num := List.mem_range.mp hi
    rw [if_neg (by omega)]
  · have hconst : ∀ x ∈ List.range (maxAgents - num),
        (fun j => if num ≤ num + j then [inactive]
          else if num + j = selfIdx then [] else [f (num + j)]) x
        = (fun _ => [inactive]) x := by
      intro x _
      simp
    rw [List.flatMap_congr hconst, flatMap_const_singleton,
      List.length_range]

/-- Helper: with the agent's own slot beyond the live range, the active-prefix
writes number exactly `num`. -/
theorem activeAgentWrites_length_ge {α : Type} (num selfIdx : ℕ) (f : ℕ → α)
    (h : num ≤ selfIdx) :
    (activeAgentWrites num selfIdx f).length = num := by
  induction num with
  | zero => rfl
  | succ n ih =>
    unfold activeAgentWrites at ih ⊢
    rw [List.range_succ, List.flatMap_append,
      List.length_append, ih (by omega)]
    simp only [List.flatMap_cons, List.flatMap_nil, List.append_nil]
    rw [if_neg (by omega)]
    rfl

/-- Helper: with the agent's own slot inside the live range, the active-prefix
writes number exactly `num - 1` (every active slot except the agent itself). -/
theorem activeAgentWrites_length {α : Type} (num selfIdx : ℕ) (f : ℕ → α)
    (h : selfIdx < num) :
    (activeAgentWrites num selfIdx f).length = num - 1 := by
  induction num with
  | zero => omega
  | succ n ih =>
    unfold activeAgentWrites at ih ⊢
    rw [List.range_succ, List.flatMap_append, List.length_append]
    simp only [List.flatMap_cons, List.flatMap_nil, List.append_nil]
    rcases Nat.lt_succ_iff_lt_or_eq.mp h with hlt | heq
    · rw [ih hlt, if_neg (by omega)]
      simp only [List.length_cons, List.length_nil]
      omega
    · have hge := activeAgentWrites_length_ge n selfIdx f (by omega)
      unfold activeAgentWrites at hge
      rw [hge, if_pos heq.symm]
      simp only [List.length_nil]
      omega

/-- Helper: every entry of the write sequence at an output index at or beyond
`num - 1` is the inactive-slot value. -/
theorem otherAgentWrites_getD_tail {α : Type} (num selfIdx : ℕ)
    (inactive : α) (f : ℕ → α) (d : α) (k : ℕ)
    (hself : selfIdx < num) (hnum : num ≤ maxAgents)
    (hk1 : num - 1 ≤ k) (hk2 : k < maxAgents - 1) :
    (otherAgentWrites num selfIdx inactive f).getD k d = inactive := by
  rw [otherAgentWrites_split num selfIdx inactive f hnum,
    List.getD_append_right _ _ _ _
      (by rw [activeAgentWrites_length num selfIdx f hself]; omega)]
  rw [activeAgentWrites_length num selfIdx f hself]
  have hidx : k - (num - 1) < maxAgents - num := by omega
  rw [List.getD_eq_getElem _ _ (by simpa using hidx),
    List.getElem_replicate]

/-! ## Claim C2 -/

/-- C2 (amended): the observation and visibility systems skip an interface
with no backing sim entity entirely, leaving every exported field unchanged
(in particular they do not zero it); for a processed (active) interface, all
box/ramp observation and visibility entries at indices at or beyond the live
counts, and all other-agent entries at output indices at or beyond
`numActiveAgents - 1`, are written as exactly zero. -/
theorem claim2_amended (atan2 : ℚ → ℚ → ℚ) (w : ObsWorld) (selfIdx : ℕ)
    (visBox visRamp visAgent : ℕ → Bool) (r : AgentIface) :
    (r.simE = false →
      collectObservationsSystem atan2 w selfIdx r = r ∧
      computeVisibilitySystem w selfIdx visBox visRamp visAgent r = r) ∧
    (r.simE = true →
      (∀ i, w.numActiveBoxes ≤ i → i < maxBoxes →
        (collectObservationsSystem atan2 w selfIdx r).boxObs i =
          BoxObservation.zero ∧
        (computeVisibilitySystem w selfIdx visBox visRamp visAgent
          r).boxVis i = 0) ∧
      (∀ i, w.numActiveRamps ≤ i → i < maxRamps →
        (collectObservationsSystem atan2 w selfIdx r).rampObs i =
          RampObservation.zero ∧
        (computeVisibilitySystem w selfIdx visBox visRamp visAgent
          r).rampVis i = 0) ∧
      (selfIdx < w.numActiveAgents → w.numActiveAgents ≤ maxAgents →
        ∀ k, w.numActiveAgents - 1 ≤ k → k < maxAgents - 1 →
          (collectObservationsSystem atan2 w selfIdx r).agentObs k =
            AgentObservation.zero ∧
          (computeVisibilitySystem w selfIdx visBox visRamp visAgent
            r).agentVis k = 0)) := by
  constructor
  · intro h
    constructor
    · simp [collectObservationsSystem, h]
    · simp [computeVisibilitySystem, h]
  · intro h
    refine ⟨?_, ?_, ?_⟩
    · intro i hge hlt
      constructor
      · simp [collectObservationsSystem, h, hlt, not_lt.mpr hge]
      · simp [computeVisibilitySystem, h, hlt, not_lt.mpr hge]
    · intro i hge hlt
      constructor
      · simp [collectObservationsSystem, h, hlt, not_lt.mpr hge]
      · simp [computeVisibilitySystem, h, hlt, not_lt.mpr hge]
    · intro hself hnum k hk1 hk2
      constructor
      · have hproj : (collectObservationsSystem atan2 w selfIdx r).agentObs k
            = (agentObsEntries w selfIdx).getD k (r.agentObs k) := by
          simp [collectObservationsSystem, h, hk2]
        rw [hproj]
        exact otherAgentWrites_getD_tail _ _ _ _ _ k hself hnum hk1 hk2
      · have hproj : (computeVisibilitySystem w selfIdx visBox visRamp
            visAgent r).agentVis k
            = (agentVisEntries w selfIdx visAgent).getD k (r.agentVis k) := by
          simp [computeVisibilitySystem, h, hk2]
        rw [hproj]
        exact otherAgentWrites_getD_tail _ _ _ _ _ k hself hnum hk1 hk2

/-- Poses for the C2 trace: an agent at the origin facing identity, and a box
one unit along x. -/
def cexPoseOrigin : EntityPose := ⟨V3.zero, V3.zero, QuatQ.id⟩

def cexPoseBox : EntityPose := ⟨⟨1, 0, 0⟩, V3.zero, QuatQ.id⟩

/-- First-episode world for the C2 trace: one live box, three live agents
(slots 0, 1, 2). -/
def cexWorldFirst : ObsWorld :=
  ⟨0, 1, fun _ => cexPoseBox, fun _ => ⟨8, 3 / 2⟩, 0,
   fun _ => cexPoseOrigin, 3, fun _ => cexPoseOrigin⟩

/-- Second-episode world: only two live agents, so slot 2 was deactivated by
`generateEnvironment`. -/
def cexWorldSecond : ObsWorld :=
  ⟨0, 1, fun _ => cexPoseBox, fun _ => ⟨8, 3 / 2⟩, 0,
   fun _ => cexPoseOrigin, 2, fun _ => cexPoseOrigin⟩

/-- Interface slot 2 at the start of the first episode: live, mask 1,
all-zero exported arrays. -/
def cexIfaceInit : AgentIface :=
  ⟨true, 1, 0, fun _ => AgentObservation.zero, fun _ => BoxObservation.zero,
   fun _ => RampObservation.zero, fun _ => 0, fun _ => 0, fun _ => 0⟩

/-- Interface slot 2 after a first-episode observation tick, the deactivation
of the slot at the next reset, and a second-episode observation and visibility
tick. -/
def cexTraceResult : AgentIface :=
  computeVisibilitySystem cexWorldSecond 2 (fun _ => false) (fun _ => false)
    (fun _ => false)
    (collectObservationsSystem (fun _ _ => 0) cexWorldSecond 2
      (deactivateAgentSlot
        (collectObservationsSystem (fun _ _ => 0) cexWorldFirst 2
          cexIfaceInit)))

/-- C2 counterexample: after the trace above, interface slot 2 is an inactive
slot (zero mask, null sim entity), yet its exported box observation record
still holds the stale relative position (1, 0) computed while it was active —
it is not zero.  The systems' early return leaves stale data in place, so the
claimed all-zero invariant for inactive slots fails. -/
theorem claim2_counterexample :
    cexTraceResult.simE = false ∧ cexTraceResult.mask = 0 ∧
    (cexTraceResult.boxObs 0).pos = ⟨1, 0⟩ ∧
    (⟨1, 0⟩ : V2) ≠ V2.zero := by
  have hskipC : ∀ r : AgentIface,
      collectObservationsSystem (fun _ _ => 0) cexWorldSecond 2
        (deactivateAgentSlot r) = deactivateAgentSlot r := by
    intro r
    simp [collectObservationsSystem, deactivateAgentSlot]
  have hskipV : ∀ r : AgentIface,
      computeVisibilitySystem cexWorldSecond 2 (fun _ => false)
        (fun _ => false) (fun _ => false) (deactivateAgentSlot r)
        = deactivateAgentSlot r := by
    intro r
    simp [computeVisibilitySystem, deactivateAgentSlot]
  have hstale : cexTraceResult =
      deactivateAgentSlot
        (collectObservationsSystem (fun _ _ => 0) cexWorldFirst 2
          cexIfaceInit) := by
    unfold cexTraceResult
    rw [hskipC, hskipV]
  rw [hstale]
  refine ⟨rfl, rfl, ?_, ?_⟩
  · show ((collectObservationsSystem (fun _ _ => 0) cexWorldFirst 2
      cexIfaceInit).boxObs 0).pos = ⟨1, 0⟩
    norm_num [collectObservationsSystem, cexIfaceInit, cexWorldFirst,
      maxBoxes, relObsPos, cexPoseOrigin, cexPoseBox, QuatQ.inv,
      QuatQ.id, QuatQ.rotateVec, V3.sub, V3.cross, V3.smul, V3.add, V3.zero]
  · intro hcontra
    have hcoord : (1 : ℚ) = 0 := congrArg V2.x hcontra
    norm_num at hcoord

/-- C2 witness: the skip branch and a zero-tail instance of the amended
theorem at concrete inputs. -/
theorem claim2_witness :
    collectObservationsSystem (fun _ _ => 0) cexWorldFirst 2
        (deactivateAgentSlot cexIfaceInit) =
      deactivateAgentSlot cexIfaceInit ∧
    (collectObservationsSystem (fun _ _ => 0) cexWorldFirst 2
        cexIfaceInit).boxObs 5 = BoxObservation.zero ∧
    (collectObservationsSystem (fun _ _ => 0) cexWorldFirst 2
        cexIfaceInit).agentObs 7 = AgentObservation.zero :=
  ⟨((claim2_amended (fun _ _ => 0) cexWorldFirst 2 (fun _ => false)
      (fun _ => false) (fun _ => false) (deactivateAgentSlot cexIfaceInit)).1
      rfl).1,
   (((claim2_amended (fun _ _ => 0) cexWorldFirst 2 (fun _ => false)
      (fun _ => false) (fun _ => false) cexIfaceInit).2 rfl).1 5
      (by decide) (by decide)).1,
   ((((claim2_amended (fun _ _ => 0) cexWorldFirst 2 (fun _ => false)
      (fun _ => false) (fun _ => false) cexIfaceInit).2 rfl).2.2
      (by decide) (by decide) 7 (by decide) (by decide)).1)⟩

end GPUHideSeek
